import Mathlib

/-!
Verification of the camp-snackbar-pos ledger and prep-queue core.

Shallow embedding of `src/backend/app.py` (routes `create_transaction`,
`calculate_account_balance`, `get_prep_queue`, `complete_prep_item`,
`get_prep_queue_history`) and of the request validation layer in
`src/backend/validation.py` (`TransactionSchema`).

Modelling conventions:
- SQLite REAL money values are modelled as rationals (`Rat`).
- Timestamps are modelled as natural numbers supplied by the caller.
- Each table is a list of records in insertion (rowid) order; a fresh
  rowid is `max id + 1`, as SQLite assigns it for these append-only tables.
- A Python exception raised inside the `BEGIN`/`commit` block makes the
  route roll back and return an error: this is modelled by `Except`, the
  pre-state being returned unchanged on `.error`.
- The `TypeError` raised by subscripting a `None` row (missing product) and
  the `FOREIGN KEY` failure on a missing account are both tagged with the
  spec's `UnknownReference`; the guard raise for an already adjusted
  original is tagged `AlreadyAdjusted`; a missing JSON key (Python
  `KeyError`) is tagged `keyError`.
-/

/-- Status column of `prep_queue`; the schema CHECK restricts it to these. -/
inductive PrepStatus where
  | pending
  | completed
deriving DecidableEq

/-- Row of the `products` table (the fields `create_transaction` reads). -/
structure Product where
  id : Nat
  name : String
  price : Rat
  requires_prep : Bool
  track_inventory : Bool
  inventory_quantity : Int
deriving DecidableEq

/-- Row of the `accounts` table; the schema has no balance column. -/
structure Account where
  id : Nat
  account_name : String
deriving DecidableEq

/-- Row of the `transactions` table. -/
structure Txn where
  id : Nat
  account_id : Nat
  transaction_type : String
  total_amount : Rat
  operator_name : String
  notes : String
  created_by : Nat
  created_by_username : String
  has_been_adjusted : Bool
deriving DecidableEq

/-- Row of the `transaction_items` table. -/
structure TxnItem where
  id : Nat
  transaction_id : Nat
  product_id : Nat
  product_name : String
  quantity : Int
  unit_price : Rat
  line_total : Rat
deriving DecidableEq

/-- Row of the `prep_queue` table. -/
structure PrepItem where
  id : Nat
  transaction_id : Nat
  transaction_item_id : Nat
  product_name : String
  quantity : Int
  account_name : String
  status : PrepStatus
  ordered_at : Nat
  completed_at : Option Nat
  completed_by : Option String
  priority : Int
deriving DecidableEq

/-- The database state: the five tables the core touches. -/
structure DBState where
  accounts : List Account
  products : List Product
  transactions : List Txn
  transaction_items : List TxnItem
  prep_queue : List PrepItem
deriving DecidableEq

/-- One line item of the raw request JSON; the client may send a price,
which `create_transaction` never reads. -/
structure LineItem where
  product_id : Nat
  quantity : Int
  price : Option Rat
deriving DecidableEq

/-- The raw JSON body of a POST `/api/transactions` request.  The handler
reads `data['total_amount']`; the schema only validates a distinct field
named `amount`. -/
structure TxnRequest where
  account_id : Nat
  transaction_type : String
  items : Option (List LineItem)
  total_amount : Option Rat
  amount : Option Rat
  original_transaction_id : Option Nat
  operator_name : Option String
  notes : Option String
deriving DecidableEq

/-- Error taxonomy for a failed commit (see §7 of the spec and the
modelling conventions above). -/
inductive TxnError where
  | validationError
  | unknownReference
  | alreadyAdjusted
  | keyError
deriving DecidableEq

/-- Response body of a successful commit. -/
structure TxnResult where
  id : Nat
  total_amount : Rat
  balance_after : Rat
  created_at : Nat
deriving DecidableEq

/-- `SELECT ... FROM products WHERE id = ?` followed by `fetchone()`. -/
def lookupProduct (st : DBState) (pid : Nat) : Option Product :=
  st.products.find? (fun p => p.id == pid)

/-- `SELECT ... FROM transactions WHERE id = ?` followed by `fetchone()`. -/
def lookupTxn (st : DBState) (tid : Nat) : Option Txn :=
  st.transactions.find? (fun t => t.id == tid)

/-- `SELECT ... FROM accounts WHERE id = ?` followed by `fetchone()`. -/
def lookupAccount (st : DBState) (aid : Nat) : Option Account :=
  st.accounts.find? (fun a => a.id == aid)

/-- `SELECT ... FROM prep_queue WHERE id = ?` followed by `fetchone()`. -/
def lookupPrep (st : DBState) (iid : Nat) : Option PrepItem :=
  st.prep_queue.find? (fun i => i.id == iid)

/-- Fresh rowid for an insert into `transactions`. -/
def nextTransactionId (st : DBState) : Nat :=
  (st.transactions.map (fun t => t.id)).foldr max 0 + 1

/-- Fresh rowid for an insert into `transaction_items`. -/
def nextItemId (st : DBState) : Nat :=
  (st.transaction_items.map (fun i => i.id)).foldr max 0 + 1

/-- Fresh rowid for an insert into `prep_queue`. -/
def nextPrepId (st : DBState) : Nat :=
  (st.prep_queue.map (fun i => i.id)).foldr max 0 + 1

/-- `calculate_account_balance` (app.py 89-98): `SELECT SUM(total_amount)
FROM transactions WHERE account_id = ?`; SQL `SUM` is `NULL` over no rows,
and the Python wrapper then returns `0.0`. -/
def calculate_account_balance (st : DBState) (account_id : Nat) : Rat :=
  match st.transactions.filter (fun t => t.account_id == account_id) with
  | [] => 0
  | rows => (rows.map (fun t => t.total_amount)).sum

/-- First loop of the purchase branch (app.py 750-755): resolve each
product and accumulate `price * quantity`; subscripting the missing row
raises (tagged `unknownReference`). -/
def sumPurchase (st : DBState) : List LineItem → Except TxnError Rat
  | [] => .ok 0
  | i :: rest =>
    match lookupProduct st i.product_id with
    | none => .error .unknownReference
    | some p =>
      match sumPurchase st rest with
      | .error e => .error e
      | .ok s => .ok (p.price * (i.quantity : Rat) + s)

/-- Computation of `total_amount` (app.py 746-775), including the
already-adjusted guard of the adjustment branch. -/
def computeTotalAmount (st : DBState) (data : TxnRequest) : Except TxnError Rat :=
  if data.transaction_type = "purchase" then
    match data.items with
    | none => .error .keyError
    | some items =>
      match sumPurchase st items with
      | .error e => .error e
      | .ok s => .ok (-s)
  else if data.transaction_type = "payment" then
    match data.total_amount with
    | none => .error .keyError
    | some a => .ok |a|
  else if data.transaction_type = "adjustment" then
    match data.total_amount with
    | none => .error .keyError
    | some a =>
      match data.original_transaction_id with
      | none => .ok a
      | some origId =>
        match lookupTxn st origId with
        | none => .ok a
        | some orig => if orig.has_been_adjusted then .error .alreadyAdjusted else .ok a
  else .ok 0

/-- The schema CHECK constraint on `transactions.transaction_type`. -/
def typeAllowed (t : String) : Bool :=
  t == "purchase" || t == "payment" || t == "adjustment"

/-- The row inserted into `transactions` (app.py 778-781);
`has_been_adjusted` takes its schema default 0. -/
def newTxn (st : DBState) (data : TxnRequest) (total : Rat)
    (created_by : Nat) (created_by_username : String) : Txn :=
  { id := nextTransactionId st
    account_id := data.account_id
    transaction_type := data.transaction_type
    total_amount := total
    operator_name := data.operator_name.getD ""
    notes := data.notes.getD ""
    created_by := created_by
    created_by_username := created_by_username
    has_been_adjusted := false }

/-- `INSERT INTO transactions ...` (app.py 777-784): enforced by the
schema are the FOREIGN KEY on `account_id` and the CHECK on the type.
Returns the new state and `lastrowid`. -/
def insertTransaction (st : DBState) (data : TxnRequest) (total : Rat)
    (created_by : Nat) (created_by_username : String) :
    Except TxnError (DBState × Nat) :=
  match lookupAccount st data.account_id with
  | none => .error .unknownReference
  | some _ =>
    if typeAllowed data.transaction_type then
      .ok ({ st with transactions := st.transactions ++
        [newTxn st data total created_by created_by_username] }, nextTransactionId st)
    else .error .validationError

/-- The audit note appended to the original transaction (app.py 799). -/
def adjustmentNote (adjId : Nat) (now : Nat) : String :=
  "Adjusted by transaction #" ++ toString adjId ++ " on " ++ toString now

/-- The notes value written onto the original transaction (app.py
790-800): the original's current notes (empty when the row is missing, or
when the notes string is falsy) with the audit reference appended. -/
def adjustedNotes (st : DBState) (origId : Nat) (adjId : Nat) (now : Nat) : String :=
  let currentNotes := match lookupTxn st origId with
    | some o => o.notes
    | none => ""
  if currentNotes = "" then adjustmentNote adjId now
  else currentNotes ++ "\n" ++ adjustmentNote adjId now

/-- Flag-and-note update of the original transaction (app.py 786-806):
`UPDATE transactions SET has_been_adjusted = 1, notes = ? WHERE id = ?`,
which matches zero rows when the original does not exist. -/
def applyAdjustmentFlag (st : DBState) (origId : Nat) (adjId : Nat) (now : Nat) : DBState :=
  { st with transactions := st.transactions.map (fun t =>
      if t.id = origId then
        { t with has_been_adjusted := true, notes := adjustedNotes st origId adjId now }
      else t) }

/-- Account-name lookup for the prep queue (app.py 810-813). -/
def accountNameFor (st : DBState) (aid : Nat) : String :=
  match lookupAccount st aid with
  | some a => a.account_name
  | none => "Unknown"

/-- Inventory decrement (app.py 836-842): `UPDATE products SET
inventory_quantity = inventory_quantity - ? WHERE id = ? AND
track_inventory = 1`. -/
def decrementInventory (st : DBState) (pid : Nat) (qty : Int) : DBState :=
  { st with products := st.products.map (fun q =>
      if q.id = pid ∧ q.track_inventory then
        { q with inventory_quantity := q.inventory_quantity - qty }
      else q) }

/-- One iteration of the second purchase loop (app.py 819-842), after the
product row has been resolved: insert the item snapshot, enqueue a prep
item when `requires_prep`, and decrement tracked inventory. -/
def purchaseStep (txnId : Nat) (accountName : String) (now : Nat)
    (st : DBState) (i : LineItem) (p : Product) : DBState :=
  let lineTotal := p.price * (i.quantity : Rat)
  let itemId := nextItemId st
  let st1 := { st with transaction_items := st.transaction_items ++
    [{ id := itemId
       transaction_id := txnId
       product_id := i.product_id
       product_name := p.name
       quantity := i.quantity
       unit_price := p.price
       line_total := lineTotal }] }
  let st2 := if p.requires_prep then
      { st1 with prep_queue := st1.prep_queue ++
        [{ id := nextPrepId st1
           transaction_id := txnId
           transaction_item_id := itemId
           product_name := p.name
           quantity := i.quantity
           account_name := accountName
           status := .pending
           ordered_at := now
           completed_at := none
           completed_by := none
           priority := 2 }] }
    else st1
  decrementInventory st2 i.product_id i.quantity

/-- Second loop of the purchase branch (app.py 815-842): per line item,
re-resolve the product (raising on a missing row), then run the loop
body. -/
def purchaseLoop (txnId : Nat) (accountName : String) (now : Nat) :
    DBState → List LineItem → Except TxnError DBState
  | st, [] => .ok st
  | st, i :: rest =>
    match lookupProduct st i.product_id with
    | none => .error .unknownReference
    | some p =>
      purchaseLoop txnId accountName now (purchaseStep txnId accountName now st i p) rest

/-- The body of the `create_transaction` route handler (app.py 731-865),
inside the `BEGIN` ... `commit()` unit.  On success it returns the new
state together with the response payload, whose `balance_after` is
recomputed from the post-commit ledger (app.py 847). -/
def create_transaction (st : DBState) (data : TxnRequest) (created_by : Nat)
    (created_by_username : String) (now : Nat) :
    Except TxnError (DBState × TxnResult) :=
  match computeTotalAmount st data with
  | .error e => .error e
  | .ok total =>
    match insertTransaction st data total created_by created_by_username with
    | .error e => .error e
    | .ok (st1, txnId) =>
      let st2 := if data.transaction_type = "adjustment" then
          match data.original_transaction_id with
          | some origId => applyAdjustmentFlag st1 origId txnId now
          | none => st1
        else st1
      match (if data.transaction_type = "purchase" then
          match data.items with
          | some items => purchaseLoop txnId (accountNameFor st2 data.account_id) now st2 items
          | none => Except.error TxnError.keyError
        else Except.ok st2) with
      | .error e => .error e
      | .ok st3 =>
        .ok (st3, { id := txnId
                    total_amount := total
                    balance_after := calculate_account_balance st3 data.account_id
                    created_at := now })

/-- `TransactionSchema` of validation.py 76-100: `account_id` a positive
integer, `transaction_type` one of the three, `notes` at most 500
characters, and, when present, the field named `amount` within
[-10000, 10000].  The raw `total_amount` and the item contents are not
validated. -/
def transactionSchemaOk (data : TxnRequest) : Bool :=
  decide (1 ≤ data.account_id)
  && typeAllowed data.transaction_type
  && (match data.notes with
      | some n => decide (n.length ≤ 500)
      | none => true)
  && (match data.amount with
      | some a => decide ((-10000 : Rat) ≤ a ∧ a ≤ 10000)
      | none => true)

/-- The full route: `@validate_json(TransactionSchema)` then the handler;
an error inside the commit unit rolls the state back (app.py 867-872). -/
def api_create_transaction (st : DBState) (data : TxnRequest) (created_by : Nat)
    (created_by_username : String) (now : Nat) : DBState × Except TxnError TxnResult :=
  if transactionSchemaOk data then
    match create_transaction st data created_by created_by_username now with
    | .ok (st', r) => (st', .ok r)
    | .error e => (st, .error e)
  else (st, .error .validationError)

/-- FIFO order of the pending listing: `ORDER BY ordered_at ASC`. -/
def orderedAtLE (a b : PrepItem) : Prop := a.ordered_at ≤ b.ordered_at

instance : DecidableRel orderedAtLE :=
  fun a b => inferInstanceAs (Decidable (a.ordered_at ≤ b.ordered_at))

instance : IsTotal PrepItem orderedAtLE := ⟨fun a b => Nat.le_total a.ordered_at b.ordered_at⟩

instance : IsTrans PrepItem orderedAtLE := ⟨fun _ _ _ h1 h2 => Nat.le_trans h1 h2⟩

/-- Most-recent-first order of the completed listing: `ORDER BY
completed_at DESC` (SQLite sorts NULL smallest, hence last in DESC). -/
def completedAtGE (a b : PrepItem) : Prop :=
  b.completed_at.getD 0 ≤ a.completed_at.getD 0

instance : DecidableRel completedAtGE :=
  fun a b => inferInstanceAs (Decidable (b.completed_at.getD 0 ≤ a.completed_at.getD 0))

instance : IsTotal PrepItem completedAtGE :=
  ⟨fun a b => Nat.le_total (b.completed_at.getD 0) (a.completed_at.getD 0)⟩

instance : IsTrans PrepItem completedAtGE := ⟨fun _ _ _ h1 h2 => Nat.le_trans h2 h1⟩

/-- `get_prep_queue` (app.py 878-925): `WHERE status = 'pending' ORDER BY
ordered_at ASC`. -/
def get_prep_queue (st : DBState) : List PrepItem :=
  List.insertionSort orderedAtLE (st.prep_queue.filter (fun i => i.status == PrepStatus.pending))

/-- `get_prep_queue_history` (app.py 951-995): `WHERE status = 'completed'
ORDER BY completed_at DESC LIMIT ?`, the limit a query argument defaulting
to 100. -/
def get_prep_queue_history (st : DBState) (limit : Nat) : List PrepItem :=
  (List.insertionSort completedAtGE
    (st.prep_queue.filter (fun i => i.status == PrepStatus.completed))).take limit

/-- `complete_prep_item` (app.py 927-949): an unconditional `UPDATE
prep_queue SET status = 'completed', completed_at = CURRENT_TIMESTAMP,
completed_by = ? WHERE id = ?`, then `{'success': True}` regardless of how
many rows matched.  `completed_by` defaults to "Staff". -/
def complete_prep_item (st : DBState) (item_id : Nat) (completed_by : Option String)
    (now : Nat) : DBState × Bool :=
  let who := completed_by.getD "Staff"
  ({ st with prep_queue := st.prep_queue.map (fun i =>
      if i.id = item_id then
        { i with status := .completed, completed_at := some now, completed_by := some who }
      else i) }, true)

/-! ## General lemmas about the embedding -/

theorem balance_eq_sum (st : DBState) (a : Nat) :
    calculate_account_balance st a
      = ((st.transactions.filter (fun t => t.account_id == a)).map
          (fun t => t.total_amount)).sum := by
  unfold calculate_account_balance
  cases h : st.transactions.filter (fun t => t.account_id == a) with
  | nil => simp
  | cons x xs => rfl

theorem find?_append_left {α : Type} {p : α → Bool} {a : α} :
    ∀ {l l' : List α}, l.find? p = some a → (l ++ l').find? p = some a := by
  intro l l' h
  induction l with
  | nil => simp [List.find?] at h
  | cons x xs ih =>
    rw [List.cons_append, List.find?]
    rw [List.find?] at h
    cases hx : p x with
    | true => rw [hx] at h; exact h
    | false => rw [hx] at h; exact ih h

theorem find?_key_map {α : Type} (key : α → Nat) (f : α → α)
    (hf : ∀ x, key (f x) = key x) (k : Nat) :
    ∀ l : List α, (l.map f).find? (fun x => key x == k) =
      (l.find? (fun x => key x == k)).map f := by
  intro l
  induction l with
  | nil => rfl
  | cons x xs ih =>
    rw [List.map_cons, List.find?, List.find?]
    cases hx : (key x == k) with
    | true =>
      have : (key (f x) == k) = true := by rw [hf]; exact hx
      rw [this]; rfl
    | false =>
      have : (key (f x) == k) = false := by rw [hf]; exact hx
      rw [this, ih]

/-! ## Concrete fixtures used by witnesses and counterexamples -/

/-- A product without prep, with tracked inventory. -/
def prodSoda : Product :=
  { id := 1, name := "Soda", price := 2, requires_prep := false,
    track_inventory := true, inventory_quantity := 10 }

/-- A product that requires preparation. -/
def prodBurger : Product :=
  { id := 2, name := "Burger", price := 5, requires_prep := true,
    track_inventory := false, inventory_quantity := 0 }

def acctA : Account := { id := 1, account_name := "Smith Family" }

/-- A committed payment of 20 on account 1. -/
def txnPay : Txn :=
  { id := 1, account_id := 1, transaction_type := "payment", total_amount := 20,
    operator_name := "", notes := "", created_by := 1,
    created_by_username := "admin", has_been_adjusted := false }

/-- One account, two products, one prior payment. -/
def baseState : DBState :=
  { accounts := [acctA], products := [prodSoda, prodBurger],
    transactions := [txnPay], transaction_items := [], prep_queue := [] }

/-- One account, no transactions. -/
def emptyLedgerState : DBState :=
  { accounts := [acctA], products := [prodSoda, prodBurger],
    transactions := [], transaction_items := [], prep_queue := [] }

/-! ## C1 -/

/-- C1: `calculate_account_balance` returns the sum of `total_amount` over
all committed transactions of the account, returns 0 when the account has
no transactions, and is a pure function of the ledger alone — two states
with the same `transactions` table give the same balance, so no stored
balance field is ever consulted. -/
theorem balance_is_ledger_sum (st : DBState) (a : Nat) :
    calculate_account_balance st a
      = ((st.transactions.filter (fun t => t.account_id == a)).map
          (fun t => t.total_amount)).sum
    ∧ (st.transactions.filter (fun t => t.account_id == a) = [] →
        calculate_account_balance st a = 0)
    ∧ (∀ st' : DBState, st'.transactions = st.transactions →
        calculate_account_balance st' a = calculate_account_balance st a) := by
  refine ⟨balance_eq_sum st a, ?_, ?_⟩
  · intro h
    unfold calculate_account_balance
    rw [h]
  · intro st' h
    unfold calculate_account_balance
    rw [h]

/-- Witness for C1 at a concrete ledger: the balance of account 1 in
`baseState` is the one payment amount, and an account with no
transactions has balance 0. -/
theorem balance_is_ledger_sum_witness :
    calculate_account_balance baseState 1
      = ((baseState.transactions.filter (fun t => t.account_id == 1)).map
          (fun t => t.total_amount)).sum
    ∧ calculate_account_balance emptyLedgerState 1 = 0 :=
  ⟨(balance_is_ledger_sum baseState 1).1,
   (balance_is_ledger_sum emptyLedgerState 1).2.1 (by decide)⟩

/-- Route outcome test used by counterexamples and the adjustment trace
count. -/
def exceptIsOk (r : Except TxnError TxnResult) : Bool :=
  match r with
  | .ok _ => true
  | .error _ => false

theorem insertTransaction_ok (st : DBState) (data : TxnRequest) (total : Rat)
    (cb : Nat) (un : String) (acc : Account)
    (hacc : lookupAccount st data.account_id = some acc)
    (hty : typeAllowed data.transaction_type = true) :
    insertTransaction st data total cb un =
      .ok ({ st with transactions := st.transactions ++ [newTxn st data total cb un] },
           nextTransactionId st) := by
  unfold insertTransaction
  rw [hacc]
  simp only [hty, if_true]

theorem balance_append_txn (st : DBState) (T : Txn) (a : Nat) :
    calculate_account_balance { st with transactions := st.transactions ++ [T] } a
      = calculate_account_balance st a + (if T.account_id == a then T.total_amount else 0) := by
  rw [balance_eq_sum, balance_eq_sum]
  simp only [List.filter_append]
  cases h : (T.account_id == a) with
  | true =>
    simp [List.filter, h]
  | false =>
    simp [List.filter, h]

/-- Characterization of a committed payment (app.py 759-760 then 777-865):
the ledger gains one row with amount `|q|` and nothing else changes. -/
theorem create_transaction_payment (st : DBState) (data : TxnRequest)
    (cb : Nat) (un : String) (now : Nat) (q : Rat) (acc : Account)
    (hty : data.transaction_type = "payment")
    (hq : data.total_amount = some q)
    (hacc : lookupAccount st data.account_id = some acc) :
    create_transaction st data cb un now =
      .ok ({ st with transactions := st.transactions ++ [newTxn st data |q| cb un] },
           { id := nextTransactionId st
             total_amount := |q|
             balance_after := calculate_account_balance
               { st with transactions := st.transactions ++ [newTxn st data |q| cb un] }
               data.account_id
             created_at := now }) := by
  have h1 : ("payment" : String) ≠ "purchase" := by decide
  have h2 : ("payment" : String) ≠ "adjustment" := by decide
  have hcta : computeTotalAmount st data = .ok |q| := by
    unfold computeTotalAmount
    rw [hty, hq]
    rw [if_neg h1, if_pos (rfl : ("payment" : String) = "payment")]
  have hins := insertTransaction_ok st data |q| cb un acc hacc (by rw [hty]; decide)
  simp only [create_transaction, hcta, hins, hty, if_neg h1, if_neg h2]

theorem balance_of_transactions_append (st' st : DBState) (T : Txn) (a : Nat)
    (h : st'.transactions = st.transactions ++ [T]) :
    calculate_account_balance st' a
      = calculate_account_balance st a
        + (if T.account_id == a then T.total_amount else 0) := by
  rw [balance_eq_sum, balance_eq_sum, h, List.filter_append]
  cases hb : (T.account_id == a) with
  | true => simp [List.filter, hb]
  | false => simp [List.filter, hb]

/-! ## C5 -/

/-- A payment request for a negative amount; the raw key `total_amount`
carries -5 and the schema-validated key `amount` is absent. -/
def payNegReq : TxnRequest :=
  { account_id := 1, transaction_type := "payment", items := none,
    total_amount := some (-5), amount := none, original_transaction_id := none,
    operator_name := none, notes := none }

/-- C5 counterexample: the payment request for -5 passes the schema, is
not rejected with `ValidationError`, and commits — the ledger gains a row.
`TransactionSchema` never validates the `total_amount` key the handler
reads, and `abs` silently flips the sign. -/
theorem payment_negative_not_rejected :
    payNegReq.total_amount = some (-5)
    ∧ transactionSchemaOk payNegReq = true
    ∧ exceptIsOk (api_create_transaction baseState payNegReq 1 "admin" 7).2 = true
    ∧ (api_create_transaction baseState payNegReq 1 "admin" 7).1.transactions.length
        = baseState.transactions.length + 1 :=
  ⟨rfl, by decide, by decide, by decide⟩

/-- C5 amended: for every payment request naming an existing account, the
committed transaction's amount equals the absolute value of the requested
amount, but non-positive requested amounts are NOT rejected: the request
commits (one ledger row is written) whatever the sign of the requested
amount, a negative request silently becoming positive and a zero request
committing with amount 0. -/
theorem payment_abs_never_rejected (st : DBState) (data : TxnRequest)
    (cb : Nat) (un : String) (now : Nat) (q : Rat) (acc : Account)
    (hok : transactionSchemaOk data = true)
    (hty : data.transaction_type = "payment")
    (hq : data.total_amount = some q)
    (hacc : lookupAccount st data.account_id = some acc) :
    ∃ st' r, api_create_transaction st data cb un now = (st', .ok r)
      ∧ r.total_amount = |q|
      ∧ (∃ T : Txn, st'.transactions = st.transactions ++ [T] ∧ T.total_amount = |q|)
      ∧ r.balance_after = calculate_account_balance st data.account_id + |q| := by
  have hc := create_transaction_payment st data cb un now q acc hty hq hacc
  refine ⟨{ st with transactions := st.transactions ++ [newTxn st data |q| cb un] },
          { id := nextTransactionId st, total_amount := |q|,
            balance_after := calculate_account_balance
              { st with transactions := st.transactions ++ [newTxn st data |q| cb un] }
              data.account_id,
            created_at := now }, ?_, rfl, ⟨newTxn st data |q| cb un, rfl, rfl⟩, ?_⟩
  · unfold api_create_transaction
    rw [if_pos hok, hc]
  · rw [balance_of_transactions_append _ st (newTxn st data |q| cb un) data.account_id rfl]
    simp [newTxn]

/-- Witness for C5's amended theorem at the concrete -5 request: the
commit succeeds with amount |−5| = 5 on top of the prior balance 20. -/
theorem payment_abs_never_rejected_witness :
    ∃ st' r, api_create_transaction baseState payNegReq 1 "admin" 7 = (st', .ok r)
      ∧ r.total_amount = |(-5 : Rat)|
      ∧ (∃ T : Txn, st'.transactions = baseState.transactions ++ [T]
          ∧ T.total_amount = |(-5 : Rat)|)
      ∧ r.balance_after = calculate_account_balance baseState 1 + |(-5 : Rat)| :=
  payment_abs_never_rejected baseState payNegReq 1 "admin" 7 (-5) acctA
    (by decide) rfl rfl (by decide)

theorem applyAdjustmentFlag_lookup (st : DBState) (origId adjId now tid : Nat) :
    lookupTxn (applyAdjustmentFlag st origId adjId now) tid
      = (lookupTxn st tid).map (fun x =>
          if x.id = origId then
            { x with has_been_adjusted := true, notes := adjustedNotes st origId adjId now }
          else x) := by
  unfold applyAdjustmentFlag lookupTxn
  exact find?_key_map (fun x => Txn.id x)
    (fun x => if x.id = origId then
        { x with has_been_adjusted := true, notes := adjustedNotes st origId adjId now }
      else x)
    (by intro x; by_cases h : x.id = origId <;> simp [h]) tid st.transactions

theorem applyAdjustmentFlag_length (st : DBState) (origId adjId now : Nat) :
    (applyAdjustmentFlag st origId adjId now).transactions.length
      = st.transactions.length := by
  simp [applyAdjustmentFlag]

/-- Characterization of a blocked refund adjustment (app.py 766-775): the
original exists with `has_been_adjusted` set, so the commit raises before
any insert. -/
theorem create_transaction_adjustment_blocked (st : DBState) (data : TxnRequest)
    (cb : Nat) (un : String) (now : Nat) (q : Rat) (origId : Nat) (T : Txn)
    (hty : data.transaction_type = "adjustment")
    (hq : data.total_amount = some q)
    (horig : data.original_transaction_id = some origId)
    (hT : lookupTxn st origId = some T)
    (hflag : T.has_been_adjusted = true) :
    create_transaction st data cb un now = .error .alreadyAdjusted := by
  have h1 : ("adjustment" : String) ≠ "purchase" := by decide
  have h2 : ("adjustment" : String) ≠ "payment" := by decide
  have hcta : computeTotalAmount st data = .error .alreadyAdjusted := by
    simp [computeTotalAmount, hty, hq, horig, hT, hflag]
  simp only [create_transaction, hcta]

/-- Characterization of a committed adjustment naming an original that is
not blocked (missing, or present with the flag still false): one ledger
row is inserted and the flag/notes update is applied to whatever row
matches the original id. -/
theorem create_transaction_adjustment_ok (st : DBState) (data : TxnRequest)
    (cb : Nat) (un : String) (now : Nat) (q : Rat) (origId : Nat) (acc : Account)
    (hty : data.transaction_type = "adjustment")
    (hq : data.total_amount = some q)
    (horig : data.original_transaction_id = some origId)
    (hflagOk : ∀ T, lookupTxn st origId = some T → T.has_been_adjusted = false)
    (hacc : lookupAccount st data.account_id = some acc) :
    create_transaction st data cb un now =
      .ok (applyAdjustmentFlag
             { st with transactions := st.transactions ++ [newTxn st data q cb un] }
             origId (nextTransactionId st) now,
           { id := nextTransactionId st
             total_amount := q
             balance_after := calculate_account_balance
               (applyAdjustmentFlag
                 { st with transactions := st.transactions ++ [newTxn st data q cb un] }
                 origId (nextTransactionId st) now)
               data.account_id
             created_at := now }) := by
  have h1 : ("adjustment" : String) ≠ "purchase" := by decide
  have h2 : ("adjustment" : String) ≠ "payment" := by decide
  have hcta : computeTotalAmount st data = .ok q := by
    cases hT : lookupTxn st origId with
    | none => simp [computeTotalAmount, hty, hq, horig, hT]
    | some T => simp [computeTotalAmount, hty, hq, horig, hT, hflagOk T hT]
  have hins := insertTransaction_ok st data q cb un acc hacc (by rw [hty]; decide)
  simp only [create_transaction, hcta, hins, hty, horig, if_neg h1, eq_self_iff_true,
    if_true]

/-! ## C6 -/

/-- An adjustment request naming original transaction 99, which does not
exist in `baseState`. -/
def adjMissingReq : TxnRequest :=
  { account_id := 1, transaction_type := "adjustment", items := none,
    total_amount := some 3, amount := none, original_transaction_id := some 99,
    operator_name := none, notes := none }

/-- C6 counterexample: original transaction 99 does not exist, yet the
adjustment commits — the guard `if orig_row and orig_row['has_been_adjusted']`
treats a missing row like an unadjusted one, and the later `UPDATE` simply
matches zero rows.  No `UnknownReference` is raised and a new ledger row
is persisted. -/
theorem adjustment_missing_original_commits :
    lookupTxn baseState 99 = none
    ∧ transactionSchemaOk adjMissingReq = true
    ∧ exceptIsOk (api_create_transaction baseState adjMissingReq 1 "admin" 9).2 = true
    ∧ (api_create_transaction baseState adjMissingReq 1 "admin" 9).1.transactions.length
        = baseState.transactions.length + 1 :=
  ⟨by decide, by decide, by decide, by decide⟩

/-- C6 amended: for every adjustment request naming an original
transaction id for which no transaction exists (on an existing account,
with a total_amount supplied), `createTransaction` does NOT fail: the
already-adjusted check passes vacuously, the commit succeeds, and the
adjustment transaction is persisted (the flag update matches no row). -/
theorem adjustment_missing_original_succeeds (st : DBState) (data : TxnRequest)
    (cb : Nat) (un : String) (now : Nat) (q : Rat) (origId : Nat) (acc : Account)
    (hok : transactionSchemaOk data = true)
    (hty : data.transaction_type = "adjustment")
    (hq : data.total_amount = some q)
    (horig : data.original_transaction_id = some origId)
    (hnone : lookupTxn st origId = none)
    (hacc : lookupAccount st data.account_id = some acc) :
    ∃ st' r, api_create_transaction st data cb un now = (st', .ok r)
      ∧ st'.transactions.length = st.transactions.length + 1 := by
  have hc := create_transaction_adjustment_ok st data cb un now q origId acc hty hq horig
    (fun T hT => by rw [hnone] at hT; cases hT) hacc
  refine ⟨applyAdjustmentFlag
            { st with transactions := st.transactions ++ [newTxn st data q cb un] }
            origId (nextTransactionId st) now,
          { id := nextTransactionId st
            total_amount := q
            balance_after := calculate_account_balance
              (applyAdjustmentFlag
                { st with transactions := st.transactions ++ [newTxn st data q cb un] }
                origId (nextTransactionId st) now)
              data.account_id
            created_at := now }, ?_, ?_⟩
  · unfold api_create_transaction
    rw [if_pos hok, hc]
  · rw [applyAdjustmentFlag_length]
    simp

/-- Witness for C6's amended theorem: the concrete request naming the
missing original 99 commits on `baseState`. -/
theorem adjustment_missing_original_succeeds_witness :
    ∃ st' r, api_create_transaction baseState adjMissingReq 1 "admin" 9 = (st', .ok r)
      ∧ st'.transactions.length = baseState.transactions.length + 1 :=
  adjustment_missing_original_succeeds baseState adjMissingReq 1 "admin" 9 3 99 acctA
    (by decide) rfl rfl rfl (by decide) (by decide)

/-! ## C3: adjustment trace machinery -/

/-- The request is a refund adjustment naming transaction `t` as original. -/
def targetsOriginal (data : TxnRequest) (t : Nat) : Bool :=
  data.transaction_type == "adjustment" && data.original_transaction_id == some t

/-- One request to the transactions route together with its actor and
commit timestamp. -/
structure ReqEnv where
  data : TxnRequest
  created_by : Nat
  created_by_username : String
  now : Nat

/-- Number of requests in the trace that are adjustments naming `t` and
succeed at their point of execution. -/
def successfulAdjustmentsTargeting (t : Nat) : DBState → List ReqEnv → Nat
  | _, [] => 0
  | st, e :: rest =>
    (if targetsOriginal e.data t
        && exceptIsOk (api_create_transaction st e.data e.created_by
            e.created_by_username e.now).2
     then 1 else 0)
      + successfulAdjustmentsTargeting t
          (api_create_transaction st e.data e.created_by e.created_by_username e.now).1
          rest

theorem purchaseStep_fixed_fields (txnId : Nat) (an : String) (now : Nat)
    (st : DBState) (i : LineItem) (p : Product) :
    (purchaseStep txnId an now st i p).transactions = st.transactions
      ∧ (purchaseStep txnId an now st i p).accounts = st.accounts := by
  unfold purchaseStep decrementInventory
  by_cases hr : p.requires_prep = true <;> simp [hr]

theorem purchaseLoop_state_fields (txnId : Nat) (an : String) (now : Nat) :
    ∀ (items : List LineItem) (st st' : DBState),
      purchaseLoop txnId an now st items = .ok st' →
      st'.transactions = st.transactions ∧ st'.accounts = st.accounts := by
  intro items
  induction items with
  | nil =>
    intro st st' h
    simp only [purchaseLoop] at h
    cases h
    exact ⟨rfl, rfl⟩
  | cons i rest ih =>
    intro st st' h
    cases hp : lookupProduct st i.product_id with
    | none => simp only [purchaseLoop, hp] at h; cases h
    | some p =>
      simp only [purchaseLoop, hp] at h
      obtain ⟨h1, h2⟩ := ih _ _ h
      obtain ⟨h3, h4⟩ := purchaseStep_fixed_fields txnId an now st i p
      exact ⟨h1.trans h3, h2.trans h4⟩

theorem insertTransaction_ok_inv {st : DBState} {data : TxnRequest} {total : Rat}
    {cb : Nat} {un : String} {st1 : DBState} {txnId : Nat}
    (h : insertTransaction st data total cb un = .ok (st1, txnId)) :
    st1 = { st with transactions := st.transactions ++ [newTxn st data total cb un] }
      ∧ txnId = nextTransactionId st := by
  unfold insertTransaction at h
  cases ha : lookupAccount st data.account_id with
  | none => rw [ha] at h; cases h
  | some acc =>
    rw [ha] at h
    by_cases ht : typeAllowed data.transaction_type = true
    · rw [if_pos ht] at h
      cases h
      exact ⟨rfl, rfl⟩
    · rw [if_neg ht] at h
      cases h

/-- Any successful commit changes the `transactions` table by appending
exactly one row, followed (for a refund adjustment) by the flag/notes
update on rows matching the original id. -/
theorem create_ok_transactions {st : DBState} {data : TxnRequest} {cb : Nat}
    {un : String} {now : Nat} {st' : DBState} {r : TxnResult}
    (h : create_transaction st data cb un now = .ok (st', r)) :
    ∃ total,
      ((data.transaction_type = "adjustment" → data.original_transaction_id = none)
        ∧ st'.transactions = st.transactions ++ [newTxn st data total cb un])
      ∨ (∃ origId note, data.transaction_type = "adjustment"
          ∧ data.original_transaction_id = some origId
          ∧ st'.transactions = (st.transactions ++ [newTxn st data total cb un]).map
              (fun x => if x.id = origId then
                  { x with has_been_adjusted := true, notes := note }
                else x)) := by
  unfold create_transaction at h
  cases hc : computeTotalAmount st data with
  | error e => rw [hc] at h; cases h
  | ok total =>
    rw [hc] at h
    dsimp only at h
    cases hi : insertTransaction st data total cb un with
    | error e => rw [hi] at h; cases h
    | ok p =>
      obtain ⟨st1, txnId⟩ := p
      obtain ⟨hst1, htid⟩ := insertTransaction_ok_inv hi
      rw [hi] at h
      dsimp only at h
      refine ⟨total, ?_⟩
      by_cases hadj : data.transaction_type = "adjustment"
      · have hnp : data.transaction_type ≠ "purchase" := by rw [hadj]; decide
        rw [if_pos hadj, if_neg hnp] at h
        dsimp only at h
        cases ho : data.original_transaction_id with
        | none =>
          rw [ho] at h
          dsimp only at h
          cases h
          exact Or.inl ⟨fun _ => rfl, by rw [hst1]⟩
        | some origId =>
          rw [ho] at h
          dsimp only at h
          cases h
          refine Or.inr ⟨origId, adjustedNotes st1 origId txnId now, hadj, rfl, ?_⟩
          rw [hst1]
          simp [applyAdjustmentFlag]
      · rw [if_neg hadj] at h
        by_cases hp : data.transaction_type = "purchase"
        · rw [if_pos hp] at h
          cases hit : data.items with
          | none => rw [hit] at h; dsimp only at h; cases h
          | some items =>
            rw [hit] at h
            dsimp only at h
            cases hl : purchaseLoop txnId (accountNameFor st1 data.account_id) now st1 items with
            | error e => rw [hl] at h; cases h
            | ok st3 =>
              rw [hl] at h
              dsimp only at h
              cases h
              obtain ⟨htr, _⟩ := purchaseLoop_state_fields txnId
                (accountNameFor st1 data.account_id) now items st1 _ hl
              exact Or.inl ⟨fun hcontra => absurd hcontra hadj, by rw [htr, hst1]⟩
        · rw [if_neg hp] at h
          dsimp only at h
          cases h
          exact Or.inl ⟨fun hcontra => absurd hcontra hadj, by rw [hst1]⟩

theorem lookupTxn_id {st : DBState} {t : Nat} {T : Txn}
    (hT : lookupTxn st t = some T) : T.id = t := by
  unfold lookupTxn at hT
  simpa using List.find?_some hT

/-- Through one arbitrary request, a transaction visible under id `t`
stays visible, and its `has_been_adjusted` flag afterwards is its old
value or-ed with "this request was a successful adjustment naming `t`". -/
theorem api_flag_evolution (st : DBState) (data : TxnRequest) (cb : Nat)
    (un : String) (now : Nat) (t : Nat) (T : Txn)
    (hT : lookupTxn st t = some T) :
    ∃ T', lookupTxn (api_create_transaction st data cb un now).1 t = some T'
      ∧ T'.has_been_adjusted
          = (T.has_been_adjusted
             || (targetsOriginal data t
                 && exceptIsOk (api_create_transaction st data cb un now).2)) := by
  unfold api_create_transaction
  by_cases hok : transactionSchemaOk data = true
  · rw [if_pos hok]
    cases hc : create_transaction st data cb un now with
    | error er =>
      exact ⟨T, hT, by simp [exceptIsOk]⟩
    | ok pair =>
      obtain ⟨st', r⟩ := pair
      dsimp only
      obtain ⟨total, hshape⟩ := create_ok_transactions hc
      cases hshape with
      | inl hplain =>
        obtain ⟨himp, htr⟩ := hplain
        refine ⟨T, ?_, ?_⟩
        · unfold lookupTxn at hT ⊢
          rw [htr]
          exact find?_append_left hT
        · have htarg : targetsOriginal data t = false := by
            unfold targetsOriginal
            by_cases hadj : data.transaction_type = "adjustment"
            · rw [himp hadj]
              simp
            · simp [hadj]
          rw [htarg]
          simp
      | inr hmap =>
        obtain ⟨origId, note, hadj, horig, htr⟩ := hmap
        have hTid : T.id = t := lookupTxn_id hT
        have hfind : lookupTxn st' t
            = some (if T.id = origId then
                { T with has_been_adjusted := true, notes := note } else T) := by
          unfold lookupTxn
          rw [htr]
          rw [find?_key_map (fun x => Txn.id x)
            (fun x => if x.id = origId then
                { x with has_been_adjusted := true, notes := note } else x)
            (by intro x; by_cases hx : x.id = origId <;> simp [hx]) t]
          unfold lookupTxn at hT
          rw [find?_append_left hT]
          rfl
        refine ⟨_, hfind, ?_⟩
        by_cases hot : T.id = origId
        · rw [if_pos hot]
          have htarg : targetsOriginal data t = true := by
            unfold targetsOriginal
            rw [hadj, horig]
            have : origId = t := by rw [← hot, hTid]
            simp [this]
          rw [htarg]
          simp [exceptIsOk]
        · rw [if_neg hot]
          have htarg : targetsOriginal data t = false := by
            unfold targetsOriginal
            rw [hadj, horig]
            have : origId ≠ t := fun hcon => hot (by rw [hTid, hcon])
            simp [this]
          rw [htarg]
          simp
  · rw [if_neg hok]
    exact ⟨T, hT, by simp [exceptIsOk]⟩

/-- An adjustment naming an original whose flag is already set can never
succeed. -/
theorem api_blocked_of_adjusted (st : DBState) (data : TxnRequest) (cb : Nat)
    (un : String) (now : Nat) (t : Nat) (T : Txn)
    (hT : lookupTxn st t = some T) (hflag : T.has_been_adjusted = true)
    (htarget : targetsOriginal data t = true) :
    exceptIsOk (api_create_transaction st data cb un now).2 = false := by
  have hconj : data.transaction_type = "adjustment"
      ∧ data.original_transaction_id = some t := by
    simpa [targetsOriginal] using htarget
  unfold api_create_transaction
  by_cases hok : transactionSchemaOk data = true
  · rw [if_pos hok]
    cases hq : data.total_amount with
    | none =>
      have hcta : computeTotalAmount st data = .error .keyError := by
        simp [computeTotalAmount, hconj.1, hconj.2, hq]
      have hcreate : create_transaction st data cb un now = .error .keyError := by
        simp only [create_transaction, hcta]
      rw [hcreate]
      rfl
    | some q =>
      have hcreate := create_transaction_adjustment_blocked st data cb un now q t T
        hconj.1 hq hconj.2 hT hflag
      rw [hcreate]
      rfl
  · rw [if_neg hok]
    rfl

/-- Across any trace of requests, a transaction visible at the start under
id `t` is the target of at most one successful adjustment — none at all
once its flag is set. -/
theorem successfulAdjustments_le (t : Nat) :
    ∀ (reqs : List ReqEnv) (st : DBState) (T : Txn),
      lookupTxn st t = some T →
      successfulAdjustmentsTargeting t st reqs
        ≤ (if T.has_been_adjusted then 0 else 1) := by
  intro reqs
  induction reqs with
  | nil =>
    intro st T hT
    simp [successfulAdjustmentsTargeting]
  | cons e rest ih =>
    intro st T hT
    obtain ⟨T', hT', hflag'⟩ := api_flag_evolution st e.data e.created_by
      e.created_by_username e.now t T hT
    by_cases hc : (targetsOriginal e.data t
        && exceptIsOk (api_create_transaction st e.data e.created_by
            e.created_by_username e.now).2) = true
    · have hpair : targetsOriginal e.data t = true
          ∧ exceptIsOk (api_create_transaction st e.data e.created_by
              e.created_by_username e.now).2 = true := by simpa using hc
      cases hb : T.has_been_adjusted with
      | true =>
        exfalso
        have hblocked := api_blocked_of_adjusted st e.data e.created_by
          e.created_by_username e.now t T hT hb hpair.1
        rw [hpair.2] at hblocked
        cases hblocked
      | false =>
        have hflagT : T'.has_been_adjusted = true := by
          rw [hflag', hb, hc]
          rfl
        have hrest := ih _ T' hT'
        rw [hflagT] at hrest
        have hzero : successfulAdjustmentsTargeting t
            (api_create_transaction st e.data e.created_by
              e.created_by_username e.now).1 rest = 0 :=
          Nat.le_zero.mp (by simpa using hrest)
        simp [successfulAdjustmentsTargeting, hc, hb, hzero]
    · have hcf : (targetsOriginal e.data t
          && exceptIsOk (api_create_transaction st e.data e.created_by
              e.created_by_username e.now).2) = false := by
        revert hc
        cases (targetsOriginal e.data t
          && exceptIsOk (api_create_transaction st e.data e.created_by
              e.created_by_username e.now).2) <;> simp
      have hb' : T'.has_been_adjusted = T.has_been_adjusted := by
        rw [hflag', hcf]
        simp
      have hrest := ih _ T' hT'
      rw [hb'] at hrest
      simpa [successfulAdjustmentsTargeting, hcf] using hrest

/-- C3: an adjustment naming an original transaction fails with
`AlreadyAdjusted` and rolls back (state unchanged, nothing persisted) when
the original's `has_been_adjusted` flag is true; when the flag is false
the commit succeeds in one atomic unit, persisting the adjustment row and
setting the original's flag to true; and over any trace of further
requests at most one successful adjustment ever targets the original, so
the flag transitions false to true at most once. -/
theorem adjustment_once_invariant (st : DBState) (data : TxnRequest)
    (cb : Nat) (un : String) (now : Nat) (q : Rat) (origId : Nat) (T : Txn) (acc : Account)
    (hok : transactionSchemaOk data = true)
    (hty : data.transaction_type = "adjustment")
    (hq : data.total_amount = some q)
    (horig : data.original_transaction_id = some origId)
    (hT : lookupTxn st origId = some T)
    (hacc : lookupAccount st data.account_id = some acc) :
    (T.has_been_adjusted = true →
        api_create_transaction st data cb un now = (st, .error .alreadyAdjusted))
    ∧ (T.has_been_adjusted = false →
        ∃ st' r, api_create_transaction st data cb un now = (st', .ok r)
          ∧ (∃ T', lookupTxn st' origId = some T' ∧ T'.has_been_adjusted = true)
          ∧ st'.transactions.length = st.transactions.length + 1)
    ∧ (∀ reqs : List ReqEnv, successfulAdjustmentsTargeting origId st reqs ≤ 1) := by
  refine ⟨?_, ?_, ?_⟩
  · intro hflag
    have hcreate := create_transaction_adjustment_blocked st data cb un now q origId T
      hty hq horig hT hflag
    unfold api_create_transaction
    rw [if_pos hok, hcreate]
  · intro hflag
    have hc := create_transaction_adjustment_ok st data cb un now q origId acc hty hq horig
      (fun T0 hT0 => by rw [hT] at hT0; cases hT0; exact hflag) hacc
    refine ⟨applyAdjustmentFlag
              { st with transactions := st.transactions ++ [newTxn st data q cb un] }
              origId (nextTransactionId st) now,
            { id := nextTransactionId st
              total_amount := q
              balance_after := calculate_account_balance
                (applyAdjustmentFlag
                  { st with transactions := st.transactions ++ [newTxn st data q cb un] }
                  origId (nextTransactionId st) now)
                data.account_id
              created_at := now }, ?_, ?_, ?_⟩
    · unfold api_create_transaction
      rw [if_pos hok, hc]
    · have hlook : lookupTxn
          { st with transactions := st.transactions ++ [newTxn st data q cb un] : DBState }
          origId = some T := by
        unfold lookupTxn at hT ⊢
        exact find?_append_left hT
      rw [applyAdjustmentFlag_lookup, hlook]
      refine ⟨_, rfl, ?_⟩
      have hTid : T.id = origId := lookupTxn_id hT
      simp [hTid]
    · rw [applyAdjustmentFlag_length]
      simp
  · intro reqs
    exact le_trans (successfulAdjustments_le origId reqs st T hT)
      (by cases T.has_been_adjusted <;> simp)

/-- The adjustment request used by the C3 witness: a refund of the
payment transaction 1 in `baseState`. -/
def adjTargetReq : TxnRequest :=
  { account_id := 1, transaction_type := "adjustment", items := none,
    total_amount := some (-20), amount := none, original_transaction_id := some 1,
    operator_name := none, notes := none }

/-- Witness for C3 at the concrete `baseState`, whose transaction 1 has
`has_been_adjusted = false`. -/
theorem adjustment_once_invariant_witness :
    (txnPay.has_been_adjusted = true →
        api_create_transaction baseState adjTargetReq 1 "admin" 11
          = (baseState, .error .alreadyAdjusted))
    ∧ (txnPay.has_been_adjusted = false →
        ∃ st' r, api_create_transaction baseState adjTargetReq 1 "admin" 11 = (st', .ok r)
          ∧ (∃ T', lookupTxn st' 1 = some T' ∧ T'.has_been_adjusted = true)
          ∧ st'.transactions.length = baseState.transactions.length + 1)
    ∧ (∀ reqs : List ReqEnv, successfulAdjustmentsTargeting 1 baseState reqs ≤ 1) :=
  adjustment_once_invariant baseState adjTargetReq 1 "admin" 11 (-20) 1 txnPay acctA
    (by decide) rfl rfl rfl (by decide) (by decide)

/-! ## Purchase machinery for C2, C4, C7 -/

/-- Catalog line total of a line item: quantity times the catalog price
(0 for an unresolvable product id; used only under resolution hypotheses). -/
def catalogLine (st : DBState) (i : LineItem) : Rat :=
  match lookupProduct st i.product_id with
  | some p => p.price * (i.quantity : Rat)
  | none => 0

/-- The observable content of a prep-queue row for C7: owning transaction,
product-name snapshot, quantity, status, order time. -/
def prepProj (x : PrepItem) : Nat × String × Int × PrepStatus × Nat :=
  (x.transaction_id, x.product_name, x.quantity, x.status, x.ordered_at)

/-- The prep entries a purchase is expected to enqueue: one pending entry
per line item whose product requires preparation, with the purchased
quantity; none for the others. -/
def expectedPrepProjs (st : DBState) (txnId : Nat) (now : Nat)
    (items : List LineItem) : List (Nat × String × Int × PrepStatus × Nat) :=
  items.filterMap (fun i =>
    match lookupProduct st i.product_id with
    | some p =>
      if p.requires_prep then some (txnId, p.name, i.quantity, PrepStatus.pending, now)
      else none
    | none => none)

/-- The catalog data the purchase loop reads from a product row. -/
def productView (p : Product) : String × Rat × Bool :=
  (p.name, p.price, p.requires_prep)

theorem sumPurchase_ok (st : DBState) : ∀ items : List LineItem,
    (∀ i ∈ items, (lookupProduct st i.product_id).isSome) →
    sumPurchase st items = .ok ((items.map (catalogLine st)).sum) := by
  intro items
  induction items with
  | nil => intro _; simp [sumPurchase]
  | cons i rest ih =>
    intro hres
    have hi := hres i (List.mem_cons_self i rest)
    cases hp : lookupProduct st i.product_id with
    | none => rw [hp] at hi; cases hi
    | some p =>
      have hrest := ih (fun j hj => hres j (List.mem_cons_of_mem i hj))
      simp [sumPurchase, hp, hrest, catalogLine]

theorem sumPurchase_error (st : DBState) : ∀ items : List LineItem,
    (∃ i ∈ items, lookupProduct st i.product_id = none) →
    sumPurchase st items = .error .unknownReference := by
  intro items
  induction items with
  | nil => rintro ⟨i, hi, _⟩; cases hi
  | cons i rest ih =>
    rintro ⟨j, hj, hnone⟩
    cases hp : lookupProduct st i.product_id with
    | none => simp [sumPurchase, hp]
    | some p =>
      have hrest : ∃ k ∈ rest, lookupProduct st k.product_id = none := by
        rcases List.mem_cons.mp hj with h | h
        · subst h; rw [hp] at hnone; cases hnone
        · exact ⟨j, h, hnone⟩
      simp [sumPurchase, hp, ih hrest]

theorem decrementInventory_view (st : DBState) (pid0 : Nat) (qty : Int) (pid : Nat) :
    (lookupProduct (decrementInventory st pid0 qty) pid).map productView
      = (lookupProduct st pid).map productView := by
  unfold decrementInventory lookupProduct
  rw [find?_key_map (fun x => Product.id x)
    (fun q => if q.id = pid0 ∧ q.track_inventory = true then
        { q with inventory_quantity := q.inventory_quantity - qty }
      else q)
    (by intro x; by_cases hx : x.id = pid0 ∧ x.track_inventory = true <;> simp [hx]) pid]
  cases hfind : st.products.find? (fun p => p.id == pid) with
  | none => rfl
  | some x =>
    by_cases hx : x.id = pid0 ∧ x.track_inventory = true <;> simp [hx, productView]

theorem lookupProduct_congr (stA stB : DBState) (h : stA.products = stB.products)
    (pid : Nat) : lookupProduct stA pid = lookupProduct stB pid := by
  unfold lookupProduct
  rw [h]

theorem purchaseStep_view (txnId : Nat) (an : String) (now : Nat)
    (st : DBState) (i : LineItem) (p : Product) (pid : Nat) :
    (lookupProduct (purchaseStep txnId an now st i p) pid).map productView
      = (lookupProduct st pid).map productView := by
  have h1 : (purchaseStep txnId an now st i p).products
      = (decrementInventory st i.product_id i.quantity).products := by
    unfold purchaseStep decrementInventory
    by_cases hr : p.requires_prep = true <;> simp [hr]
  rw [lookupProduct_congr (purchaseStep txnId an now st i p)
      (decrementInventory st i.product_id i.quantity) h1 pid]
  exact decrementInventory_view st i.product_id i.quantity pid

theorem purchaseStep_prep_queue (txnId : Nat) (an : String) (now : Nat)
    (st : DBState) (i : LineItem) (p : Product) :
    (purchaseStep txnId an now st i p).prep_queue
      = st.prep_queue
        ++ (if p.requires_prep then
            [{ id := nextPrepId { st with transaction_items := st.transaction_items ++
                 [{ id := nextItemId st
                    transaction_id := txnId
                    product_id := i.product_id
                    product_name := p.name
                    quantity := i.quantity
                    unit_price := p.price
                    line_total := p.price * (i.quantity : Rat) }] }
               transaction_id := txnId
               transaction_item_id := nextItemId st
               product_name := p.name
               quantity := i.quantity
               account_name := an
               status := .pending
               ordered_at := now
               completed_at := none
               completed_by := none
               priority := 2 }]
          else []) := by
  unfold purchaseStep decrementInventory
  by_cases hr : p.requires_prep = true <;> simp [hr]

theorem expectedPrepProjs_congr (stA stB : DBState) (txnId now : Nat)
    (h : ∀ pid, (lookupProduct stA pid).map productView
        = (lookupProduct stB pid).map productView) :
    ∀ items, expectedPrepProjs stA txnId now items
      = expectedPrepProjs stB txnId now items := by
  intro items
  induction items with
  | nil => rfl
  | cons i rest ih =>
    have hv := h i.product_id
    simp only [expectedPrepProjs, List.filterMap_cons] at ih ⊢
    cases h1 : lookupProduct stA i.product_id with
    | none =>
      cases h2 : lookupProduct stB i.product_id with
      | none => simpa [h1, h2] using ih
      | some p2 => rw [h1, h2] at hv; cases hv
    | some p1 =>
      cases h2 : lookupProduct stB i.product_id with
      | none => rw [h1, h2] at hv; cases hv
      | some p2 =>
        rw [h1, h2] at hv
        have hview : productView p1 = productView p2 := Option.some.inj hv
        have hname : p1.name = p2.name := congrArg (fun v => v.1) hview
        have hreq : p1.requires_prep = p2.requires_prep :=
          congrArg (fun v => v.2.2) hview
        simp [ih, hname, hreq]

/-- When every line item resolves, the purchase loop succeeds, leaves the
ledger alone, appends exactly the expected prep entries (one pending entry
per requires-prep item, with the purchased quantity), and preserves every
product's catalog view. -/
theorem purchaseLoop_ok (txnId : Nat) (an : String) (now : Nat) :
    ∀ (items : List LineItem) (st : DBState),
      (∀ i ∈ items, (lookupProduct st i.product_id).isSome) →
      ∃ st', purchaseLoop txnId an now st items = .ok st'
        ∧ st'.transactions = st.transactions
        ∧ st'.prep_queue.map prepProj
            = st.prep_queue.map prepProj ++ expectedPrepProjs st txnId now items
        ∧ (∀ pid, (lookupProduct st' pid).map productView
            = (lookupProduct st pid).map productView) := by
  intro items
  induction items with
  | nil =>
    intro st _
    exact ⟨st, rfl, rfl, by simp [expectedPrepProjs], fun _ => rfl⟩
  | cons i rest ih =>
    intro st hres
    have hi := hres i (List.mem_cons_self i rest)
    cases hp : lookupProduct st i.product_id with
    | none => rw [hp] at hi; cases hi
    | some p =>
      have hview := purchaseStep_view txnId an now st i p
      have hres' : ∀ j ∈ rest,
          (lookupProduct (purchaseStep txnId an now st i p) j.product_id).isSome := by
        intro j hj
        have hsome := hres j (List.mem_cons_of_mem i hj)
        have hv := hview j.product_id
        cases hq : lookupProduct st j.product_id with
        | none => rw [hq] at hsome; cases hsome
        | some q =>
          rw [hq] at hv
          cases hq2 : lookupProduct (purchaseStep txnId an now st i p) j.product_id with
          | none => rw [hq2] at hv; cases hv
          | some _ => rfl
      obtain ⟨st', hloop, htr, hprep, hview2⟩ := ih (purchaseStep txnId an now st i p) hres'
      refine ⟨st', ?_, ?_, ?_, ?_⟩
      · simp only [purchaseLoop, hp]
        exact hloop
      · rw [htr, (purchaseStep_fixed_fields txnId an now st i p).1]
      · rw [hprep, expectedPrepProjs_congr _ _ txnId now hview rest,
            purchaseStep_prep_queue]
        by_cases hr : p.requires_prep = true
        · simp [hr, expectedPrepProjs, List.filterMap_cons, hp, prepProj, List.map_append]
        · simp [hr, expectedPrepProjs, List.filterMap_cons, hp, List.map_append]
      · intro pid
        rw [hview2 pid, hview pid]

/-- Characterization of a committed purchase: amount is minus the catalog
sum, the ledger gains exactly the one new row, and the prep queue gains
exactly the expected entries. -/
theorem create_transaction_purchase (st : DBState) (data : TxnRequest)
    (cb : Nat) (un : String) (now : Nat) (items : List LineItem) (acc : Account)
    (hty : data.transaction_type = "purchase")
    (hitems : data.items = some items)
    (hres : ∀ i ∈ items, (lookupProduct st i.product_id).isSome)
    (hacc : lookupAccount st data.account_id = some acc) :
    ∃ st', create_transaction st data cb un now =
        .ok (st', { id := nextTransactionId st
                    total_amount := -((items.map (catalogLine st)).sum)
                    balance_after := calculate_account_balance st' data.account_id
                    created_at := now })
      ∧ st'.transactions = st.transactions
          ++ [newTxn st data (-((items.map (catalogLine st)).sum)) cb un]
      ∧ st'.prep_queue.map prepProj
          = st.prep_queue.map prepProj
            ++ expectedPrepProjs st (nextTransactionId st) now items := by
  have hsum := sumPurchase_ok st items hres
  have hcta : computeTotalAmount st data = .ok (-((items.map (catalogLine st)).sum)) := by
    unfold computeTotalAmount
    rw [hty, hitems, if_pos (rfl : ("purchase" : String) = "purchase")]
    dsimp only
    rw [hsum]
  have hins := insertTransaction_ok st data (-((items.map (catalogLine st)).sum)) cb un
    acc hacc (by rw [hty]; decide)
  have hres1 : ∀ i ∈ items,
      (lookupProduct
        { st with transactions := st.transactions
            ++ [newTxn st data (-((items.map (catalogLine st)).sum)) cb un] }
        i.product_id).isSome :=
    fun i hi => hres i hi
  obtain ⟨st3, hloop, htr, hprep, hview⟩ := purchaseLoop_ok (nextTransactionId st)
    (accountNameFor
      { st with transactions := st.transactions
          ++ [newTxn st data (-((items.map (catalogLine st)).sum)) cb un] }
      data.account_id) now items
    { st with transactions := st.transactions
        ++ [newTxn st data (-((items.map (catalogLine st)).sum)) cb un] } hres1
  refine ⟨st3, ?_, ?_, ?_⟩
  · unfold create_transaction
    rw [hcta]
    dsimp only
    rw [hins]
    dsimp only
    rw [hty, if_neg (by decide : ¬ ("purchase" : String) = "adjustment"),
        if_pos (rfl : ("purchase" : String) = "purchase"), hitems]
    dsimp only
    rw [hloop]
  · rw [htr]
  · rw [hprep]
    rfl

/-! ## C2 -/

/-- C2: for every purchase request whose line items all resolve in the
catalog (on an existing account), the committed amount is the negation of
the sum over items of quantity times the catalog price — the formula reads
only the catalog rows, so any client-supplied item price is ignored — and
`balance_after` equals the previous balance plus that (negative) amount. -/
theorem purchase_amount_and_balance (st : DBState) (data : TxnRequest)
    (cb : Nat) (un : String) (now : Nat) (items : List LineItem) (acc : Account)
    (hok : transactionSchemaOk data = true)
    (hty : data.transaction_type = "purchase")
    (hitems : data.items = some items)
    (hres : ∀ i ∈ items, (lookupProduct st i.product_id).isSome)
    (hacc : lookupAccount st data.account_id = some acc) :
    ∃ st' r, api_create_transaction st data cb un now = (st', .ok r)
      ∧ r.total_amount = -((items.map (catalogLine st)).sum)
      ∧ r.balance_after = calculate_account_balance st data.account_id
          + r.total_amount := by
  obtain ⟨st', hcr, htr, _⟩ := create_transaction_purchase st data cb un now items acc
    hty hitems hres hacc
  refine ⟨st', { id := nextTransactionId st
                 total_amount := -((items.map (catalogLine st)).sum)
                 balance_after := calculate_account_balance st' data.account_id
                 created_at := now }, ?_, rfl, ?_⟩
  · unfold api_create_transaction
    rw [if_pos hok, hcr]
  · rw [balance_of_transactions_append st' st _ data.account_id htr]
    simp [newTxn]

/-- A purchase of 3 sodas (catalog price 2) and 2 burgers (catalog price
5), with a bogus client-supplied price on the first line. -/
def purchaseReq : TxnRequest :=
  { account_id := 1, transaction_type := "purchase",
    items := some [{ product_id := 1, quantity := 3, price := some 1 },
                   { product_id := 2, quantity := 2, price := none }],
    total_amount := none, amount := none, original_transaction_id := none,
    operator_name := none, notes := none }

/-- Witness for C2 on `baseState`: the commit succeeds with amount
−(2·3 + 5·2) = −16 and balance 20 − 16. -/
theorem purchase_amount_and_balance_witness :
    (∃ st' r, api_create_transaction baseState purchaseReq 1 "admin" 13 = (st', .ok r)
      ∧ r.total_amount
          = -(([({ product_id := 1, quantity := 3, price := some 1 } : LineItem),
               { product_id := 2, quantity := 2, price := none }].map
                (catalogLine baseState)).sum)
      ∧ r.balance_after = calculate_account_balance baseState 1 + r.total_amount)
    ∧ -(([({ product_id := 1, quantity := 3, price := some 1 } : LineItem),
          { product_id := 2, quantity := 2, price := none }].map
           (catalogLine baseState)).sum) = (-16 : Rat) :=
  ⟨purchase_amount_and_balance baseState purchaseReq 1 "admin" 13
      [{ product_id := 1, quantity := 3, price := some 1 },
       { product_id := 2, quantity := 2, price := none }] acctA
      (by decide) rfl rfl (by decide) (by decide),
   by norm_num [catalogLine, lookupProduct, baseState, prodSoda, prodBurger, List.find?,
     show ((1 : Nat) == 1) = true from rfl, show ((1 : Nat) == 2) = false from rfl,
     show ((2 : Nat) == 2) = true from rfl]⟩

/-! ## C4 -/

/-- C4: a purchase containing any line item whose product id does not
resolve fails (the raise is tagged `UnknownReference` per the spec's
taxonomy) and the whole unit rolls back: the returned state is exactly the
pre-state, so zero transactions, items, prep entries and inventory changes
persist. -/
theorem purchase_unknown_product_rolls_back (st : DBState) (data : TxnRequest)
    (cb : Nat) (un : String) (now : Nat) (items : List LineItem) (i0 : LineItem)
    (hok : transactionSchemaOk data = true)
    (hty : data.transaction_type = "purchase")
    (hitems : data.items = some items)
    (hmem : i0 ∈ items)
    (hmiss : lookupProduct st i0.product_id = none) :
    api_create_transaction st data cb un now = (st, .error .unknownReference) := by
  have hsum := sumPurchase_error st items ⟨i0, hmem, hmiss⟩
  have hcta : computeTotalAmount st data = .error .unknownReference := by
    unfold computeTotalAmount
    rw [hty, hitems, if_pos (rfl : ("purchase" : String) = "purchase")]
    dsimp only
    rw [hsum]
  have hcreate : create_transaction st data cb un now = .error .unknownReference := by
    simp only [create_transaction, hcta]
  unfold api_create_transaction
  rw [if_pos hok, hcreate]

/-- A purchase naming product 77, which does not exist in `baseState`. -/
def purchaseBadReq : TxnRequest :=
  { account_id := 1, transaction_type := "purchase",
    items := some [{ product_id := 1, quantity := 1, price := none },
                   { product_id := 77, quantity := 1, price := none }],
    total_amount := none, amount := none, original_transaction_id := none,
    operator_name := none, notes := none }

/-- Witness for C4: the purchase naming missing product 77 fails and
leaves `baseState` untouched. -/
theorem purchase_unknown_product_rolls_back_witness :
    api_create_transaction baseState purchaseBadReq 1 "admin" 13
      = (baseState, .error .unknownReference) :=
  purchase_unknown_product_rolls_back baseState purchaseBadReq 1 "admin" 13
    [{ product_id := 1, quantity := 1, price := none },
     { product_id := 77, quantity := 1, price := none }]
    { product_id := 77, quantity := 1, price := none }
    (by decide) rfl rfl (by decide) (by decide)

/-! ## C7 -/

/-- C7: a committed purchase appends to the prep queue exactly one pending
entry, carrying the purchased quantity, for each line item whose product's
requires-prep flag is set at the moment of purchase, and no entry for the
other items (`expectedPrepProjs` is that filter). -/
theorem purchase_prep_entries (st : DBState) (data : TxnRequest)
    (cb : Nat) (un : String) (now : Nat) (items : List LineItem) (acc : Account)
    (hok : transactionSchemaOk data = true)
    (hty : data.transaction_type = "purchase")
    (hitems : data.items = some items)
    (hres : ∀ i ∈ items, (lookupProduct st i.product_id).isSome)
    (hacc : lookupAccount st data.account_id = some acc) :
    ∃ st' r, api_create_transaction st data cb un now = (st', .ok r)
      ∧ r.id = nextTransactionId st
      ∧ st'.prep_queue.map prepProj
          = st.prep_queue.map prepProj
            ++ expectedPrepProjs st (nextTransactionId st) now items := by
  obtain ⟨st', hcr, _, hprep⟩ := create_transaction_purchase st data cb un now items acc
    hty hitems hres hacc
  refine ⟨st', { id := nextTransactionId st
                 total_amount := -((items.map (catalogLine st)).sum)
                 balance_after := calculate_account_balance st' data.account_id
                 created_at := now }, ?_, rfl, hprep⟩
  unfold api_create_transaction
  rw [if_pos hok, hcr]

/-- Witness for C7 on `baseState`: the purchase of 3 sodas (no prep) and
2 burgers (requires prep) enqueues exactly one pending entry, transaction
2, product-name "Burger", quantity 2, ordered at the commit time. -/
theorem purchase_prep_entries_witness :
    (∃ st' r, api_create_transaction baseState purchaseReq 1 "admin" 13 = (st', .ok r)
      ∧ r.id = nextTransactionId baseState
      ∧ st'.prep_queue.map prepProj
          = baseState.prep_queue.map prepProj
            ++ expectedPrepProjs baseState (nextTransactionId baseState) 13
                [{ product_id := 1, quantity := 3, price := some 1 },
                 { product_id := 2, quantity := 2, price := none }])
    ∧ expectedPrepProjs baseState (nextTransactionId baseState) 13
        [{ product_id := 1, quantity := 3, price := some 1 },
         { product_id := 2, quantity := 2, price := none }]
      = [(2, "Burger", 2, PrepStatus.pending, 13)] :=
  ⟨purchase_prep_entries baseState purchaseReq 1 "admin" 13
      [{ product_id := 1, quantity := 3, price := some 1 },
       { product_id := 2, quantity := 2, price := none }] acctA
      (by decide) rfl rfl (by decide) (by decide),
   by decide⟩

/-! ## C9, C10: completing prep items -/

theorem lookupPrep_id {st : DBState} {iid : Nat} {p : PrepItem}
    (hp : lookupPrep st iid = some p) : p.id = iid := by
  unfold lookupPrep at hp
  simpa using List.find?_some hp

/-- C9: `completePrepItem` always acknowledges success and performs the
unconditional update: the matching item's status becomes completed and its
`completed_at`/`completed_by` are overwritten with the new values, every
other field of the item unchanged and every other item untouched.  There
is no idempotence guard: the hypothesis allows the item to already be
completed, in which case the same overwrite happens again. -/
theorem complete_prep_overwrites (st : DBState) (item_id : Nat)
    (who : Option String) (now : Nat) (p : PrepItem)
    (hp : lookupPrep st item_id = some p) :
    (complete_prep_item st item_id who now).2 = true
    ∧ (∃ p', lookupPrep (complete_prep_item st item_id who now).1 item_id = some p'
        ∧ p'.status = PrepStatus.completed
        ∧ p'.completed_at = some now
        ∧ p'.completed_by = some (who.getD "Staff")
        ∧ p'.id = p.id ∧ p'.transaction_id = p.transaction_id
        ∧ p'.transaction_item_id = p.transaction_item_id
        ∧ p'.product_name = p.product_name ∧ p'.quantity = p.quantity
        ∧ p'.account_name = p.account_name ∧ p'.ordered_at = p.ordered_at
        ∧ p'.priority = p.priority)
    ∧ (∀ q ∈ st.prep_queue, q.id ≠ item_id →
        q ∈ (complete_prep_item st item_id who now).1.prep_queue) := by
  have hid : p.id = item_id := lookupPrep_id hp
  refine ⟨rfl, ?_, ?_⟩
  · unfold complete_prep_item lookupPrep
    dsimp only
    rw [find?_key_map (fun x => PrepItem.id x)
      (fun i => if i.id = item_id then
          { i with
              status := .completed
              completed_at := some now
              completed_by := some (who.getD "Staff") }
        else i)
      (by intro x; by_cases hx : x.id = item_id <;> simp [hx]) item_id]
    unfold lookupPrep at hp
    rw [hp]
    refine ⟨_, rfl, ?_⟩
    dsimp only
    rw [if_pos hid]
    simp
  · intro q hq hqid
    unfold complete_prep_item
    dsimp only
    have : (if q.id = item_id then
        { q with
            status := PrepStatus.completed
            completed_at := some now
            completed_by := some (who.getD "Staff") }
      else q) = q := if_neg hqid
    rw [← this]
    exact List.mem_map_of_mem _ hq

/-- A prep-queue state: two pending items (ordered at 5 and 2) and two
completed items (completed at 3 and 9). -/
def prepState : DBState :=
  { accounts := [acctA], products := [], transactions := [], transaction_items := [],
    prep_queue :=
      [{ id := 1, transaction_id := 1, transaction_item_id := 1, product_name := "Cocoa",
         quantity := 1, account_name := "A", status := .pending, ordered_at := 5,
         completed_at := none, completed_by := none, priority := 2 },
       { id := 2, transaction_id := 1, transaction_item_id := 2, product_name := "Toast",
         quantity := 2, account_name := "A", status := .completed, ordered_at := 1,
         completed_at := some 3, completed_by := some "Sam", priority := 2 },
       { id := 3, transaction_id := 2, transaction_item_id := 3, product_name := "Cocoa",
         quantity := 1, account_name := "B", status := .pending, ordered_at := 2,
         completed_at := none, completed_by := none, priority := 2 },
       { id := 4, transaction_id := 2, transaction_item_id := 4, product_name := "Soup",
         quantity := 3, account_name := "B", status := .completed, ordered_at := 2,
         completed_at := some 9, completed_by := some "Kim", priority := 2 }] }

/-- Witness for C9: re-completing item 2 of `prepState`, already completed
at time 3 by "Sam", succeeds and overwrites the completion metadata with
time 42 and "Pat", leaving the other fields unchanged. -/
theorem complete_prep_overwrites_witness :
    (complete_prep_item prepState 2 (some "Pat") 42).2 = true
    ∧ (∃ p', lookupPrep (complete_prep_item prepState 2 (some "Pat") 42).1 2 = some p'
        ∧ p'.status = PrepStatus.completed
        ∧ p'.completed_at = some 42
        ∧ p'.completed_by = some ((some "Pat").getD "Staff")
        ∧ p'.id = 2
        ∧ p'.transaction_id = 1 ∧ p'.transaction_item_id = 2
        ∧ p'.product_name = "Toast" ∧ p'.quantity = 2
        ∧ p'.account_name = "A" ∧ p'.ordered_at = 1
        ∧ p'.priority = 2)
    ∧ (∀ q ∈ prepState.prep_queue, q.id ≠ 2 →
        q ∈ (complete_prep_item prepState 2 (some "Pat") 42).1.prep_queue) :=
  complete_prep_overwrites prepState 2 (some "Pat") 42
    { id := 2, transaction_id := 1, transaction_item_id := 2, product_name := "Toast",
      quantity := 2, account_name := "A", status := .completed, ordered_at := 1,
      completed_at := some 3, completed_by := some "Sam", priority := 2 }
    (by decide)

/-- C10: `completePrepItem` performs no existence check: when no
prep-queue item has the given id, the `UPDATE` matches zero rows, the
state is unchanged, and the call still acknowledges success. -/
theorem complete_prep_missing_id (st : DBState) (item_id : Nat)
    (who : Option String) (now : Nat)
    (hmiss : lookupPrep st item_id = none) :
    complete_prep_item st item_id who now = (st, true) := by
  unfold complete_prep_item
  dsimp only
  have hnone : ∀ x ∈ st.prep_queue, ¬(x.id == item_id) = true := by
    unfold lookupPrep at hmiss
    exact List.find?_eq_none.mp hmiss
  have hmap : st.prep_queue.map (fun i =>
      if i.id = item_id then
        { i with
            status := PrepStatus.completed
            completed_at := some now
            completed_by := some (who.getD "Staff") }
      else i) = st.prep_queue := by
    have h1 : ∀ x ∈ st.prep_queue, (fun i : PrepItem =>
        if i.id = item_id then
          { i with
              status := PrepStatus.completed
              completed_at := some now
              completed_by := some (who.getD "Staff") }
        else i) x = id x := by
      intro x hx
      have hne : x.id ≠ item_id := by simpa using hnone x hx
      simp [if_neg hne]
    rw [List.map_congr_left h1, List.map_id]
  rw [hmap]

/-- Witness for C10: completing the nonexistent item 999 of `prepState`
changes nothing and still returns success. -/
theorem complete_prep_missing_id_witness :
    complete_prep_item prepState 999 (some "Pat") 42 = (prepState, true) :=
  complete_prep_missing_id prepState 999 (some "Pat") 42 (by decide)

/-! ## C8: prep-queue listings -/

/-- C8 amended: the pending listing returns exactly the pending items in
`ordered_at`-ascending (FIFO) order; the completed listing returns only
completed items in `completed_at`-descending order, but truncated to the
caller-supplied limit (default 100) — it is exactly the completed items
only when their number is within the limit. -/
theorem prep_queue_listings (st : DBState) (limit : Nat) :
    (get_prep_queue st).Perm
        (st.prep_queue.filter (fun i => i.status == PrepStatus.pending))
    ∧ List.Sorted orderedAtLE (get_prep_queue st)
    ∧ (∀ x ∈ get_prep_queue st, x.status = PrepStatus.pending)
    ∧ List.Sorted completedAtGE (get_prep_queue_history st limit)
    ∧ (∀ x ∈ get_prep_queue_history st limit, x.status = PrepStatus.completed)
    ∧ (get_prep_queue_history st limit).length
        = min limit
            (st.prep_queue.filter (fun i => i.status == PrepStatus.completed)).length
    ∧ ((st.prep_queue.filter (fun i => i.status == PrepStatus.completed)).length
          ≤ limit →
        (get_prep_queue_history st limit).Perm
          (st.prep_queue.filter (fun i => i.status == PrepStatus.completed))) := by
  refine ⟨List.perm_insertionSort _ _, List.sorted_insertionSort _ _, ?_, ?_, ?_, ?_, ?_⟩
  · intro x hx
    unfold get_prep_queue at hx
    rw [List.mem_insertionSort] at hx
    have := (List.mem_filter.mp hx).2
    simpa using this
  · exact List.Pairwise.sublist (List.take_sublist _ _)
      (List.sorted_insertionSort completedAtGE _)
  · intro x hx
    unfold get_prep_queue_history at hx
    have hx1 := List.mem_of_mem_take hx
    rw [List.mem_insertionSort] at hx1
    have := (List.mem_filter.mp hx1).2
    simpa using this
  · unfold get_prep_queue_history
    rw [List.length_take, List.length_insertionSort]
  · intro hle
    unfold get_prep_queue_history
    rw [List.take_of_length_le (by rw [List.length_insertionSort]; exact hle)]
    exact List.perm_insertionSort _ _

/-- Witness for C8's amended theorem on `prepState` (limit within range):
both listings are permutations of the respective filters. -/
theorem prep_queue_listings_witness :
    (get_prep_queue prepState).Perm
        (prepState.prep_queue.filter (fun i => i.status == PrepStatus.pending))
    ∧ (get_prep_queue_history prepState 100).Perm
        (prepState.prep_queue.filter (fun i => i.status == PrepStatus.completed)) :=
  ⟨(prep_queue_listings prepState 100).1,
   (prep_queue_listings prepState 100).2.2.2.2.2.2 (by decide)⟩

/-- 101 completed prep items, completed at times 0..100. -/
def bigCompletedState : DBState :=
  { accounts := [acctA], products := [], transactions := [], transaction_items := [],
    prep_queue := (List.range 101).map (fun k =>
      { id := k + 1, transaction_id := 1, transaction_item_id := 1,
        product_name := "Cocoa", quantity := 1, account_name := "A",
        status := PrepStatus.completed, ordered_at := 0, completed_at := some k,
        completed_by := some "S", priority := 2 }) }

/-- C8 counterexample: with 101 completed items and the default limit 100,
the completed listing returns only 100 items, so it is not "exactly the
items whose status is completed" — the `LIMIT` clause truncates it. -/
theorem prep_history_limit_counterexample :
    (get_prep_queue_history bigCompletedState 100).length = 100
    ∧ (bigCompletedState.prep_queue.filter
        (fun i => i.status == PrepStatus.completed)).length = 101
    ∧ ¬ (get_prep_queue_history bigCompletedState 100).Perm
        (bigCompletedState.prep_queue.filter
          (fun i => i.status == PrepStatus.completed)) := by
  have hall : ∀ x ∈ bigCompletedState.prep_queue,
      (x.status == PrepStatus.completed) = true := by
    intro x hx
    simp only [bigCompletedState, List.mem_map, List.mem_range] at hx
    obtain ⟨k, _, rfl⟩ := hx
    rfl
  have hfilter := List.filter_eq_self.mpr hall
  have hlen : bigCompletedState.prep_queue.length = 101 := by
    simp [bigCompletedState]
  have h1 : (get_prep_queue_history bigCompletedState 100).length = 100 := by
    unfold get_prep_queue_history
    rw [hfilter, List.length_take, List.length_insertionSort, hlen]
    decide
  refine ⟨h1, ?_, ?_⟩
  · rw [hfilter]
    exact hlen
  · intro hperm
    have hlcontra := hperm.length_eq
    rw [h1, hfilter, hlen] at hlcontra
    exact absurd hlcontra (by decide)
